import Mathlib

/-!
Shallow embedding of the cw20-base allowance subsystem
(contracts/cw20-base/src/allowances.rs) and proofs about it.

Storage maps are modelled as functions from keys to optional values; the
`ALLOWANCES` map (keyed (owner, spender)) and the `ALLOWANCES_SPENDER`
reverse index (keyed (spender, owner)) live in disjoint storage
namespaces, so they are separate fields of the contract state.  Uint128
values are modelled as `Nat` with explicit `2 ^ 128` bounds where the
source performs bounded arithmetic.  Fallible code returns `Except`.
-/

/-- Addresses; address-format validation is outside the modelled core. -/
abbrev Addr := String

/-- Expiration of an allowance grant, as in the cw20 dependency:
`AtHeight`, `AtTime` (seconds), or `Never`. -/
inductive Expiration where
  | atHeight (h : Nat)
  | atTime (t : Nat)
  | never
deriving DecidableEq

/-- Block context: current chain height and time. -/
structure BlockInfo where
  height : Nat
  time : Nat
deriving DecidableEq

/-- Expiration test of the cw20 dependency: `AtHeight h` is expired iff
the block height has reached `h`; `AtTime t` iff the block time has
reached `t`; `Never` is never expired. -/
def Expiration.is_expired (e : Expiration) (b : BlockInfo) : Bool :=
  match e with
  | .atHeight h => decide (h ≤ b.height)
  | .atTime t => decide (t ≤ b.time)
  | .never => false

/-- A stored allowance grant: remaining amount and expiration. -/
structure AllowanceResponse where
  allowance : Nat
  expires : Expiration
deriving DecidableEq

/-- The Rust `Default` value for `AllowanceResponse`: amount 0, `Never`. -/
def AllowanceResponse.default_val : AllowanceResponse :=
  { allowance := 0, expires := Expiration.never }

/-- Outcomes of an execution step.  The `Std`-prefixed constructors model
`StdError` values converted into `ContractError::Std`; `overflowAbort`
models a Rust panic from the unchecked `Uint128` addition operator
(`val.allowance += amount` and balance credits), which aborts the
invocation rather than returning an error value. -/
inductive ExecError where
  | cannotSetOwnAccount
  | invalidExpiration
  | expired
  | noAllowance
  | stdOverflow
  | stdNotFound
  | overflowAbort
deriving DecidableEq

/-- The number of values of a 128-bit unsigned integer. -/
def U128 : Nat := 2 ^ 128

/-- `Uint128::checked_sub` followed by `map_err(StdError::overflow)`:
an overflow error when the subtrahend exceeds the minuend. -/
def checked_sub (a b : Nat) : Except ExecError Nat :=
  if b ≤ a then .ok (a - b) else .error .stdOverflow

/-- The `Uint128` `+` operator: aborts (Rust panic) when the sum leaves
the 128-bit range, instead of returning an error. -/
def u128_add (a b : Nat) : Except ExecError Nat :=
  if a + b < U128 then .ok (a + b) else .error .overflowAbort

/-- A storage map, as used by cw-storage-plus `Map`. -/
def Map (κ α : Type) : Type := κ → Option α

/-- `Map::save`: store a value at a key. -/
def Map.save {κ α : Type} [DecidableEq κ] (m : Map κ α) (k : κ) (v : α) :
    Map κ α :=
  fun k2 => if k2 = k then some v else m k2

/-- `Map::remove`: delete the entry at a key. -/
def Map.remove {κ α : Type} [DecidableEq κ] (m : Map κ α) (k : κ) :
    Map κ α :=
  fun k2 => if k2 = k then none else m k2

/-- `Map::update`: read the current (optional) value, apply the action,
save and return the result on success, propagate the error otherwise. -/
def Map.update {κ α : Type} [DecidableEq κ] (m : Map κ α) (k : κ)
    (f : Option α → Except ExecError α) : Except ExecError (Map κ α × α) :=
  match f (m k) with
  | .ok v => .ok (m.save k v, v)
  | .error e => .error e

/-- Contract storage touched by the allowance subsystem: the primary
allowance map, the reverse (spender-keyed) index, account balances, and
the token-info total supply. -/
structure ContractState where
  allowances : Map (Addr × Addr) AllowanceResponse
  allowances_spender : Map (Addr × Addr) AllowanceResponse
  balances : Map Addr Nat
  total_supply : Nat

/-- Environment passed to each execute call. -/
structure Env where
  block : BlockInfo

/-- Message info: the sender (caller) address. -/
structure MessageInfo where
  sender : Addr
deriving DecidableEq

/-- The update closure of `execute_increase_allowance`: take the current
grant or the default, replace the expiration if a new unexpired one is
supplied (error `InvalidExpiration` if it is already expired), then add
the amount with the aborting `Uint128` addition. -/
def increase_update_fn (block : BlockInfo) (amount : Nat)
    (expires : Option Expiration) (allow : Option AllowanceResponse) :
    Except ExecError AllowanceResponse :=
  let val := allow.getD AllowanceResponse.default_val
  match expires with
  | some exp =>
    if exp.is_expired block then .error .invalidExpiration
    else
      match u128_add val.allowance amount with
      | .ok n => .ok { allowance := n, expires := exp }
      | .error e => .error e
  | none =>
    match u128_add val.allowance amount with
    | .ok n => .ok { val with allowance := n }
    | .error e => .error e

/-- `execute_increase_allowance`: reject self-allowance, then apply the
same update closure to the primary map at (sender, spender) and to the
reverse index at (spender, sender). -/
def execute_increase_allowance (s : ContractState) (env : Env)
    (info : MessageInfo) (spender : Addr) (amount : Nat)
    (expires : Option Expiration) : Except ExecError ContractState :=
  if spender = info.sender then .error .cannotSetOwnAccount
  else
    match Map.update s.allowances (info.sender, spender)
        (increase_update_fn env.block amount expires) with
    | .error e => .error e
    | .ok (m1, _) =>
      match Map.update s.allowances_spender (spender, info.sender)
          (increase_update_fn env.block amount expires) with
      | .error e => .error e
      | .ok (m2, _) =>
        .ok { s with allowances := m1, allowances_spender := m2 }

/-- `execute_decrease_allowance`: reject self-allowance; `load` the
current grant (a missing entry surfaces as the storage `NotFound`
`StdError` through the `?` operator, there is no `NoAllowance` check on
this path); if the decrease is strictly smaller than the current amount,
subtract and optionally replace the expiration (validated), saving to
both indices; otherwise remove the entry from both indices, ignoring any
supplied expiration. -/
def execute_decrease_allowance (s : ContractState) (env : Env)
    (info : MessageInfo) (spender : Addr) (amount : Nat)
    (expires : Option Expiration) : Except ExecError ContractState :=
  if spender = info.sender then .error .cannotSetOwnAccount
  else
    match s.allowances (info.sender, spender) with
    | none => .error .stdNotFound
    | some cur =>
      if amount < cur.allowance then
        match checked_sub cur.allowance amount with
        | .error e => .error e
        | .ok n =>
          match expires with
          | some exp =>
            if exp.is_expired env.block then .error .invalidExpiration
            else
              .ok { s with
                allowances := Map.save s.allowances (info.sender, spender)
                  { allowance := n, expires := exp },
                allowances_spender := Map.save s.allowances_spender
                  (spender, info.sender) { allowance := n, expires := exp } }
          | none =>
            .ok { s with
              allowances := Map.save s.allowances (info.sender, spender)
                { cur with allowance := n },
              allowances_spender := Map.save s.allowances_spender
                (spender, info.sender) { cur with allowance := n } }
      else
        .ok { s with
          allowances := Map.remove s.allowances (info.sender, spender),
          allowances_spender :=
            Map.remove s.allowances_spender (spender, info.sender) }

/-- The update closure of `deduct_allowance`: a missing grant is
`NoAllowance`; an elapsed grant is `Expired`; otherwise subtract with
`checked_sub` (insufficient allowance surfaces as an overflow error). -/
def deduct_update_fn (block : BlockInfo) (amount : Nat)
    (current : Option AllowanceResponse) :
    Except ExecError AllowanceResponse :=
  match current with
  | some a =>
    if a.expires.is_expired block then .error .expired
    else
      match checked_sub a.allowance amount with
      | .ok n => .ok { a with allowance := n }
      | .error e => .error e
  | none => .error .noAllowance

/-- `deduct_allowance`: apply the deduct closure to the primary map at
(owner, spender) and then to the reverse index at (spender, owner),
returning the updated grant from the second update. -/
def deduct_allowance (s : ContractState) (owner spender : Addr)
    (block : BlockInfo) (amount : Nat) :
    Except ExecError (ContractState × AllowanceResponse) :=
  match Map.update s.allowances (owner, spender)
      (deduct_update_fn block amount) with
  | .error e => .error e
  | .ok (m1, _) =>
    match Map.update s.allowances_spender (spender, owner)
        (deduct_update_fn block amount) with
    | .error e => .error e
    | .ok (m2, v) =>
      .ok ({ s with allowances := m1, allowances_spender := m2 }, v)

/-- The balance-debit closure used by the spend operations:
`balance.unwrap_or_default().checked_sub(amount)?`. -/
def debit_fn (amount : Nat) (balance : Option Nat) : Except ExecError Nat :=
  checked_sub (balance.getD 0) amount

/-- The balance-credit closure used by the spend operations:
`balance.unwrap_or_default() + amount` with the aborting addition. -/
def credit_fn (amount : Nat) (balance : Option Nat) : Except ExecError Nat :=
  u128_add (balance.getD 0) amount

/-- `execute_transfer_from`: deduct the caller allowance against the
owner first, then debit the owner balance, then credit the recipient. -/
def execute_transfer_from (s : ContractState) (env : Env)
    (info : MessageInfo) (owner recipient : Addr) (amount : Nat) :
    Except ExecError ContractState :=
  match deduct_allowance s owner info.sender env.block amount with
  | .error e => .error e
  | .ok (s1, _) =>
    match Map.update s1.balances owner (debit_fn amount) with
    | .error e => .error e
    | .ok (b1, _) =>
      match Map.update b1 recipient (credit_fn amount) with
      | .error e => .error e
      | .ok (b2, _) => .ok { s1 with balances := b2 }

/-- `execute_burn_from`: deduct the caller allowance, debit the owner
balance, then decrement the total supply with checked subtraction. -/
def execute_burn_from (s : ContractState) (env : Env) (info : MessageInfo)
    (owner : Addr) (amount : Nat) : Except ExecError ContractState :=
  match deduct_allowance s owner info.sender env.block amount with
  | .error e => .error e
  | .ok (s1, _) =>
    match Map.update s1.balances owner (debit_fn amount) with
    | .error e => .error e
    | .ok (b1, _) =>
      match checked_sub s1.total_supply amount with
      | .error e => .error e
      | .ok ts => .ok { s1 with balances := b1, total_supply := ts }

/-- The outbound receive message built by `execute_send_from`; its
recorded sender is the delegated caller, not the funds owner. -/
structure Cw20ReceiveMsg where
  sender : Addr
  amount : Nat
  msg : List Nat
deriving DecidableEq

/-- `execute_send_from`: deduct the caller allowance, debit the owner,
credit the target contract, and produce the receive message dispatched
to it. -/
def execute_send_from (s : ContractState) (env : Env) (info : MessageInfo)
    (owner contract : Addr) (amount : Nat) (msg : List Nat) :
    Except ExecError (ContractState × Cw20ReceiveMsg) :=
  match deduct_allowance s owner info.sender env.block amount with
  | .error e => .error e
  | .ok (s1, _) =>
    match Map.update s1.balances owner (debit_fn amount) with
    | .error e => .error e
    | .ok (b1, _) =>
      match Map.update b1 contract (credit_fn amount) with
      | .error e => .error e
      | .ok (b2, _) =>
        .ok ({ s1 with balances := b2 },
          { sender := info.sender, amount := amount, msg := msg })

/-- `query_allowance`: the stored grant at (owner, spender) in the
primary map, or the default if absent. -/
def query_allowance (s : ContractState) (owner spender : Addr) :
    AllowanceResponse :=
  (s.allowances (owner, spender)).getD AllowanceResponse.default_val

/-- Modelled from the spec: the execution environment (absent from the
repository sources) wraps each invocation in a transaction — on any
error or abort, all staged mutations of the invocation are discarded and
the pre-state is what later calls observe. -/
def invoke (s : ContractState)
    (f : ContractState → Except ExecError ContractState) :
    ContractState × Option ExecError :=
  match f s with
  | .ok s2 => (s2, none)
  | .error e => (s, some e)

/-- Modelled from the spec: the transactional wrapper for invocations
that additionally produce an outbound message. -/
def invokeMsg (s : ContractState)
    (f : ContractState → Except ExecError (ContractState × Cw20ReceiveMsg)) :
    ContractState × Option ExecError :=
  match f s with
  | .ok (s2, _) => (s2, none)
  | .error e => (s, some e)

/-- The dual-index consistency relation: the primary map holds an entry
at (owner, spender) exactly when the reverse index holds one at
(spender, owner), and the stored grants are identical. -/
def Mirror (s : ContractState) : Prop :=
  ∀ o sp : Addr, s.allowances (o, sp) = s.allowances_spender (sp, o)

/-- The empty contract state: no grants, no balances, zero supply. -/
def emptyState : ContractState :=
  { allowances := fun _ => none
    allowances_spender := fun _ => none
    balances := fun _ => none
    total_supply := 0 }

/-- A fixed block context for concrete runs. -/
def envH : Env := { block := { height := 12345, time := 1571797419 } }

/-- A fixed caller for concrete runs. -/
def infoA : MessageInfo := { sender := "addr0001" }

/-- Concrete pre-state for the spend scenario: the owner holds 999999
and has granted the spender 77777 with no expiration. -/
def sC3 : ContractState :=
  { allowances := Map.save emptyState.allowances ("addr0001", "addr0002")
      { allowance := 77777, expires := Expiration.never },
    allowances_spender := Map.save emptyState.allowances_spender
      ("addr0002", "addr0001") { allowance := 77777, expires := Expiration.never },
    balances := Map.save emptyState.balances "addr0001" 999999,
    total_supply := 999999 }

/-- Pre-state holding a grant one below the 128-bit maximum. -/
def sBig : ContractState :=
  { allowances := Map.save emptyState.allowances ("addr0001", "addr0002")
      { allowance := U128 - 1, expires := Expiration.never },
    allowances_spender := Map.save emptyState.allowances_spender
      ("addr0002", "addr0001")
      { allowance := U128 - 1, expires := Expiration.never },
    balances := emptyState.balances,
    total_supply := 0 }

/-- Concrete pre-state for the decrease scenarios: a grant of 7777
expiring at height 123456. -/
def sC5 : ContractState :=
  { allowances := Map.save emptyState.allowances ("addr0001", "addr0002")
      { allowance := 7777, expires := Expiration.atHeight 123456 },
    allowances_spender := Map.save emptyState.allowances_spender
      ("addr0002", "addr0001")
      { allowance := 7777, expires := Expiration.atHeight 123456 },
    balances := emptyState.balances,
    total_supply := 0 }

/-- A block context at exactly the height of the sC5 grant expiration,
so the grant counts as expired. -/
def envExp : Env := { block := { height := 123456, time := 1571797419 } }

/-- The state after a concrete successful increase from the empty state. -/
def stateC1post : ContractState :=
  (execute_increase_allowance emptyState envH infoA "addr0002" 7777
    none).toOption.getD emptyState

/-- The state after a concrete successful partial decrease on sC5. -/
def stateC9post : ContractState :=
  (execute_decrease_allowance sC5 envH infoA "addr0002" 4444
    none).toOption.getD emptyState

theorem mirror_save (s : ContractState) (h : Mirror s) (o sp : Addr)
    (v : AllowanceResponse) :
    Mirror { s with
      allowances := Map.save s.allowances (o, sp) v,
      allowances_spender := Map.save s.allowances_spender (sp, o) v } := by
  intro a b
  show (if (a, b) = (o, sp) then some v else s.allowances (a, b)) =
    (if (b, a) = (sp, o) then some v else s.allowances_spender (b, a))
  by_cases hab : (a, b) = (o, sp)
  · have hba : (b, a) = (sp, o) := by
      rw [Prod.mk.injEq] at hab ⊢
      exact ⟨hab.2, hab.1⟩
    rw [if_pos hab, if_pos hba]
  · have hba : (b, a) ≠ (sp, o) := by
      intro hc
      rw [Prod.mk.injEq] at hab hc
      exact hab ⟨hc.2, hc.1⟩
    rw [if_neg hab, if_neg hba]
    exact h a b

theorem mirror_remove (s : ContractState) (h : Mirror s) (o sp : Addr) :
    Mirror { s with
      allowances := Map.remove s.allowances (o, sp),
      allowances_spender := Map.remove s.allowances_spender (sp, o) } := by
  intro a b
  show (if (a, b) = (o, sp) then none else s.allowances (a, b)) =
    (if (b, a) = (sp, o) then none else s.allowances_spender (b, a))
  by_cases hab : (a, b) = (o, sp)
  · have hba : (b, a) = (sp, o) := by
      rw [Prod.mk.injEq] at hab ⊢
      exact ⟨hab.2, hab.1⟩
    rw [if_pos hab, if_pos hba]
  · have hba : (b, a) ≠ (sp, o) := by
      intro hc
      rw [Prod.mk.injEq] at hab hc
      exact hab ⟨hc.2, hc.1⟩
    rw [if_neg hab, if_neg hba]
    exact h a b

theorem mirror_after_double_update (s : ContractState) (h : Mirror s)
    (o sp : Addr) (f : Option AllowanceResponse → Except ExecError AllowanceResponse)
    (m1 m2 : Map (Addr × Addr) AllowanceResponse) (v1 v2 : AllowanceResponse)
    (h1 : Map.update s.allowances (o, sp) f = .ok (m1, v1))
    (h2 : Map.update s.allowances_spender (sp, o) f = .ok (m2, v2)) :
    Mirror { s with allowances := m1, allowances_spender := m2 } ∧ v1 = v2 := by
  unfold Map.update at h1 h2
  rw [← h o sp] at h2
  cases hf : f (s.allowances (o, sp)) with
  | error e => rw [hf] at h1; exact absurd h1 (by simp)
  | ok v =>
    rw [hf] at h1 h2
    simp only [Except.ok.injEq, Prod.mk.injEq] at h1 h2
    obtain ⟨hm1, hv1⟩ := h1
    obtain ⟨hm2, hv2⟩ := h2
    subst hm1
    subst hm2
    subst hv1
    subst hv2
    exact ⟨mirror_save s h o sp v, rfl⟩

theorem mirror_increase (s : ContractState) (h : Mirror s) (env : Env)
    (info : MessageInfo) (spender : Addr) (amount : Nat)
    (expires : Option Expiration) (s2 : ContractState)
    (hok : execute_increase_allowance s env info spender amount expires =
      .ok s2) : Mirror s2 := by
  unfold execute_increase_allowance at hok
  split at hok
  · simp at hok
  · split at hok
    · simp at hok
    · rename_i m1 v1 heq1
      split at hok
      · simp at hok
      · rename_i m2 v2 heq2
        injection hok with hok
        subst hok
        exact (mirror_after_double_update s h info.sender spender _
          m1 m2 v1 v2 heq1 heq2).1

theorem mirror_deduct (s : ContractState) (h : Mirror s)
    (owner spender : Addr) (block : BlockInfo) (amount : Nat)
    (s2 : ContractState) (v : AllowanceResponse)
    (hok : deduct_allowance s owner spender block amount = .ok (s2, v)) :
    Mirror s2 := by
  unfold deduct_allowance at hok
  split at hok
  · simp at hok
  · rename_i m1 v1 heq1
    split at hok
    · simp at hok
    · rename_i m2 v2 heq2
      injection hok with hok
      rw [Prod.mk.injEq] at hok
      obtain ⟨hs2, _⟩ := hok
      subst hs2
      exact (mirror_after_double_update s h owner spender _
        m1 m2 v1 v2 heq1 heq2).1

theorem mirror_decrease (s : ContractState) (h : Mirror s) (env : Env)
    (info : MessageInfo) (spender : Addr) (amount : Nat)
    (expires : Option Expiration) (s2 : ContractState)
    (hok : execute_decrease_allowance s env info spender amount expires =
      .ok s2) : Mirror s2 := by
  unfold execute_decrease_allowance at hok
  split at hok
  · simp at hok
  · split at hok
    · simp at hok
    · rename_i cur heq
      split at hok
      · split at hok
        · simp at hok
        · rename_i n heqsub
          split at hok
          · rename_i exp
            split at hok
            · simp at hok
            · injection hok with hok
              subst hok
              exact mirror_save s h info.sender spender _
          · injection hok with hok
            subst hok
            exact mirror_save s h info.sender spender _
      · injection hok with hok
        subst hok
        exact mirror_remove s h info.sender spender

theorem mirror_transfer_from (s : ContractState) (h : Mirror s) (env : Env)
    (info : MessageInfo) (owner recipient : Addr) (amount : Nat)
    (s2 : ContractState)
    (hok : execute_transfer_from s env info owner recipient amount =
      .ok s2) : Mirror s2 := by
  unfold execute_transfer_from at hok
  split at hok
  · simp at hok
  · rename_i s1 v heq
    split at hok
    · simp at hok
    · rename_i b1 x1 heqb1
      split at hok
      · simp at hok
      · rename_i b2 x2 heqb2
        injection hok with hok
        subst hok
        exact mirror_deduct s h owner info.sender env.block amount s1 v heq

theorem mirror_burn_from (s : ContractState) (h : Mirror s) (env : Env)
    (info : MessageInfo) (owner : Addr) (amount : Nat) (s2 : ContractState)
    (hok : execute_burn_from s env info owner amount = .ok s2) :
    Mirror s2 := by
  unfold execute_burn_from at hok
  split at hok
  · simp at hok
  · rename_i s1 v heq
    split at hok
    · simp at hok
    · rename_i b1 x1 heqb1
      split at hok
      · simp at hok
      · rename_i ts heqts
        injection hok with hok
        subst hok
        exact mirror_deduct s h owner info.sender env.block amount s1 v heq

theorem mirror_send_from (s : ContractState) (h : Mirror s) (env : Env)
    (info : MessageInfo) (owner contract : Addr) (amount : Nat)
    (msg : List Nat) (s2 : ContractState) (m : Cw20ReceiveMsg)
    (hok : execute_send_from s env info owner contract amount msg =
      .ok (s2, m)) : Mirror s2 := by
  unfold execute_send_from at hok
  split at hok
  · simp at hok
  · rename_i s1 v heq
    split at hok
    · simp at hok
    · rename_i b1 x1 heqb1
      split at hok
      · simp at hok
      · rename_i b2 x2 heqb2
        injection hok with hok
        rw [Prod.mk.injEq] at hok
        obtain ⟨hs2, _⟩ := hok
        subst hs2
        exact mirror_deduct s h owner info.sender env.block amount s1 v heq

/-- Claim C1: for every state whose primary allowance map and reverse
index mirror each other (an entry at (owner, spender) exists iff one at
(spender, owner) does, with identical Allowance values), every operation
of the subsystem — increase_allowance, decrease_allowance,
deduct_allowance, and the spend operations transfer_from, burn_from and
send_from built on it — yields, whenever it succeeds, a state that still
mirrors. -/
theorem claim_C1_mirror_preservation (s : ContractState) (h : Mirror s) :
    (∀ env info spender amount expires s2,
      execute_increase_allowance s env info spender amount expires =
        .ok s2 → Mirror s2)
    ∧ (∀ env info spender amount expires s2,
      execute_decrease_allowance s env info spender amount expires =
        .ok s2 → Mirror s2)
    ∧ (∀ owner spender block amount s2 v,
      deduct_allowance s owner spender block amount = .ok (s2, v) →
        Mirror s2)
    ∧ (∀ env info owner recipient amount s2,
      execute_transfer_from s env info owner recipient amount = .ok s2 →
        Mirror s2)
    ∧ (∀ env info owner amount s2,
      execute_burn_from s env info owner amount = .ok s2 → Mirror s2)
    ∧ (∀ env info owner contract amount msg s2 m,
      execute_send_from s env info owner contract amount msg =
        .ok (s2, m) → Mirror s2) := by
  refine ⟨?_, ?_, ?_, ?_, ?_, ?_⟩
  · exact fun env info spender amount expires s2 hok =>
      mirror_increase s h env info spender amount expires s2 hok
  · exact fun env info spender amount expires s2 hok =>
      mirror_decrease s h env info spender amount expires s2 hok
  · exact fun owner spender block amount s2 v hok =>
      mirror_deduct s h owner spender block amount s2 v hok
  · exact fun env info owner recipient amount s2 hok =>
      mirror_transfer_from s h env info owner recipient amount s2 hok
  · exact fun env info owner amount s2 hok =>
      mirror_burn_from s h env info owner amount s2 hok
  · exact fun env info owner contract amount msg s2 m hok =>
      mirror_send_from s h env info owner contract amount msg s2 m hok

theorem claim_C1_witness : Mirror stateC1post :=
  (claim_C1_mirror_preservation emptyState (fun _ _ => rfl)).1
    envH infoA "addr0002" 7777 none stateC1post rfl

theorem invoke_error_keeps_state (s : ContractState)
    (f : ContractState → Except ExecError ContractState) (e : ExecError)
    (h : (invoke s f).2 = some e) : (invoke s f).1 = s := by
  unfold invoke at h ⊢
  cases hf : f s with
  | ok s2 => rw [hf] at h; simp at h
  | error e2 => rfl

theorem invokeMsg_error_keeps_state (s : ContractState)
    (f : ContractState → Except ExecError (ContractState × Cw20ReceiveMsg))
    (e : ExecError) (h : (invokeMsg s f).2 = some e) :
    (invokeMsg s f).1 = s := by
  unfold invokeMsg at h ⊢
  cases hf : f s with
  | ok p => rw [hf] at h; simp at h
  | error e2 => rfl

/-- Claim C2: transfer_from, burn_from and send_from are atomic — for
every invocation that ends in an error at any step, no mutation of the
allowance stores, balances or total supply persists: the post-state that
later calls observe equals the pre-state. -/
theorem claim_C2_atomicity (s : ContractState) (env : Env)
    (info : MessageInfo) (e : ExecError) :
    (∀ owner recipient amount,
      (invoke s (fun st =>
        execute_transfer_from st env info owner recipient amount)).2 =
          some e →
      (invoke s (fun st =>
        execute_transfer_from st env info owner recipient amount)).1 = s)
    ∧ (∀ owner amount,
      (invoke s (fun st =>
        execute_burn_from st env info owner amount)).2 = some e →
      (invoke s (fun st =>
        execute_burn_from st env info owner amount)).1 = s)
    ∧ (∀ owner contract amount msg,
      (invokeMsg s (fun st =>
        execute_send_from st env info owner contract amount msg)).2 =
          some e →
      (invokeMsg s (fun st =>
        execute_send_from st env info owner contract amount msg)).1 = s) := by
  refine ⟨?_, ?_, ?_⟩
  · exact fun owner recipient amount h =>
      invoke_error_keeps_state s _ e h
  · exact fun owner amount h => invoke_error_keeps_state s _ e h
  · exact fun owner contract amount msg h =>
      invokeMsg_error_keeps_state s _ e h

theorem claim_C2_witness :
    (invoke sC5 (fun st => execute_transfer_from st envH
      { sender := "addr0002" } "addr0001" "addr0003" 100)).1 = sC5 :=
  (claim_C2_atomicity sC5 envH { sender := "addr0002" } .stdOverflow).1
    "addr0001" "addr0003" 100 rfl

theorem deduct_ok (s : ContractState) (owner spender : Addr)
    (block : BlockInfo) (g : AllowanceResponse) (a : Nat)
    (h1 : s.allowances (owner, spender) = some g)
    (h2 : s.allowances_spender (spender, owner) = some g)
    (hexp : g.expires.is_expired block = false)
    (ha : a ≤ g.allowance) :
    deduct_allowance s owner spender block a =
      .ok ({ s with
        allowances := Map.save s.allowances (owner, spender)
          { g with allowance := g.allowance - a },
        allowances_spender := Map.save s.allowances_spender (spender, owner)
          { g with allowance := g.allowance - a } },
      { g with allowance := g.allowance - a }) := by
  unfold deduct_allowance Map.update deduct_update_fn
  rw [h1, h2]
  simp [hexp, checked_sub, ha]

/-- Claim C3: for every owner, spender and recipient with an unexpired
grant of amount at least the transfer amount and an owner balance at
least the transfer amount, transfer_from called by the spender succeeds;
afterwards the owner balance is decreased by the amount, the recipient
balance is increased by it, and the remaining grant (in both indices) is
the old amount minus it with the expiration kept. -/
theorem claim_C3_transfer_success (s : ContractState) (env : Env)
    (info : MessageInfo) (owner recipient : Addr) (g b r a : Nat)
    (exp : Expiration)
    (hm1 : s.allowances (owner, info.sender) =
      some { allowance := g, expires := exp })
    (hm2 : s.allowances_spender (info.sender, owner) =
      some { allowance := g, expires := exp })
    (hexp : exp.is_expired env.block = false)
    (hga : a ≤ g)
    (hb : (s.balances owner).getD 0 = b)
    (hba : a ≤ b)
    (hr : (s.balances recipient).getD 0 = r)
    (hro : recipient ≠ owner)
    (hcred : r + a < U128) :
    ∃ s2, execute_transfer_from s env info owner recipient a = .ok s2
      ∧ s2.balances owner = some (b - a)
      ∧ s2.balances recipient = some (r + a)
      ∧ s2.allowances (owner, info.sender) =
        some { allowance := g - a, expires := exp }
      ∧ s2.allowances_spender (info.sender, owner) =
        some { allowance := g - a, expires := exp } := by
  have hd := deduct_ok s owner info.sender env.block
    { allowance := g, expires := exp } a hm1 hm2 hexp hga
  have hdeb : Map.update s.balances owner (debit_fn a) =
      .ok (Map.save s.balances owner (b - a), b - a) := by
    unfold Map.update debit_fn checked_sub
    rw [hb]
    simp [hba]
  have hsave : (Map.save s.balances owner (b - a)) recipient =
      s.balances recipient := by
    unfold Map.save
    rw [if_neg hro]
  have hcre : Map.update (Map.save s.balances owner (b - a)) recipient
      (credit_fn a) =
      .ok (Map.save (Map.save s.balances owner (b - a)) recipient (r + a),
        r + a) := by
    unfold Map.update credit_fn u128_add
    rw [hsave, hr]
    simp [hcred]
  unfold execute_transfer_from
  rw [hd]
  dsimp only
  rw [hdeb]
  dsimp only
  rw [hcre]
  dsimp only
  refine ⟨_, rfl, ?_, ?_, ?_, ?_⟩
  · show (Map.save (Map.save s.balances owner (b - a)) recipient (r + a))
      owner = some (b - a)
    unfold Map.save
    rw [if_neg (Ne.symm hro), if_pos rfl]
  · show (Map.save (Map.save s.balances owner (b - a)) recipient (r + a))
      recipient = some (r + a)
    unfold Map.save
    rw [if_pos rfl]
  · show (Map.save s.allowances (owner, info.sender)
      { allowance := g - a, expires := exp }) (owner, info.sender) =
      some { allowance := g - a, expires := exp }
    unfold Map.save
    rw [if_pos rfl]
  · show (Map.save s.allowances_spender (info.sender, owner)
      { allowance := g - a, expires := exp }) (info.sender, owner) =
      some { allowance := g - a, expires := exp }
    unfold Map.save
    rw [if_pos rfl]

theorem claim_C3_witness :
    ∃ s2, execute_transfer_from sC3 envH { sender := "addr0002" }
        "addr0001" "addr0003" 44444 = .ok s2
      ∧ s2.balances "addr0001" = some 955555
      ∧ s2.balances "addr0003" = some 44444
      ∧ s2.allowances ("addr0001", "addr0002") =
        some { allowance := 33333, expires := Expiration.never } := by
  obtain ⟨s2, he, hb1, hb2, ha1, ha2⟩ :=
    claim_C3_transfer_success sC3 envH { sender := "addr0002" }
      "addr0001" "addr0003" 77777 999999 0 44444 Expiration.never
      rfl rfl rfl (by decide) rfl (by decide) rfl (by decide) (by decide)
  exact ⟨s2, he, by simpa using hb1, by simpa using hb2, by simpa using ha1⟩

/-- Claim C4 counterexample: increasing a grant of 2 ^ 128 - 1 by 1
does not produce the ArithmeticOverflow (Std overflow) error the claim
asserts; the unchecked Uint128 addition aborts (Rust panic) instead. -/
theorem claim_C4_counterexample :
    execute_increase_allowance sBig envH infoA "addr0002" 1 none =
      .error .overflowAbort
    ∧ ExecError.overflowAbort ≠ ExecError.stdOverflow := by
  constructor
  · rfl
  · decide

/-- Claim C4 (amended): when the current amount plus the requested
amount leaves the unsigned 128-bit range, increase_allowance aborts via
the panicking Uint128 addition (rather than returning an
ArithmeticOverflow error value), and the transactional invocation leaves
storage unchanged. -/
theorem claim_C4_amended (s : ContractState) (env : Env)
    (info : MessageInfo) (spender : Addr) (c a : Nat) (e : Expiration)
    (hs : spender ≠ info.sender)
    (hcur : s.allowances (info.sender, spender) =
      some { allowance := c, expires := e })
    (hov : U128 ≤ c + a) :
    execute_increase_allowance s env info spender a none =
      .error .overflowAbort
    ∧ invoke s (fun st =>
        execute_increase_allowance st env info spender a none) =
      (s, some .overflowAbort) := by
  have hmain : execute_increase_allowance s env info spender a none =
      .error .overflowAbort := by
    unfold execute_increase_allowance Map.update increase_update_fn u128_add
    rw [if_neg hs, hcur]
    simp only [Option.getD_some]
    rw [if_neg (Nat.not_lt.mpr hov)]
  constructor
  · exact hmain
  · unfold invoke
    dsimp only
    rw [hmain]

theorem claim_C4_witness :
    execute_increase_allowance sBig envH infoA "addr0002" 1 none =
      .error .overflowAbort
    ∧ invoke sBig (fun st =>
        execute_increase_allowance st envH infoA "addr0002" 1 none) =
      (sBig, some .overflowAbort) :=
  claim_C4_amended sBig envH infoA "addr0002" (U128 - 1) 1
    Expiration.never (by decide) rfl (by decide)

/-- Claim C5: for every existing grant and every decrease by at least
the current amount, the grant is deleted from both the primary and the
reverse index regardless of the overshoot, a subsequent query_allowance
returns the default (amount 0, Never), and the supplied expires
argument has no observable effect on the result. -/
theorem claim_C5_decrease_delete (s : ContractState) (env : Env)
    (info : MessageInfo) (spender : Addr) (cur : AllowanceResponse)
    (amount : Nat) (expires : Option Expiration)
    (hs : spender ≠ info.sender)
    (hcur : s.allowances (info.sender, spender) = some cur)
    (hge : cur.allowance ≤ amount) :
    ∃ s2, execute_decrease_allowance s env info spender amount expires =
        .ok s2
      ∧ s2.allowances (info.sender, spender) = none
      ∧ s2.allowances_spender (spender, info.sender) = none
      ∧ query_allowance s2 info.sender spender =
        AllowanceResponse.default_val
      ∧ ∀ e2, execute_decrease_allowance s env info spender amount e2 =
          execute_decrease_allowance s env info spender amount expires := by
  have hnot : ¬ amount < cur.allowance := Nat.not_lt.mpr hge
  have hrun : ∀ e2,
      execute_decrease_allowance s env info spender amount e2 =
      .ok { s with
        allowances := Map.remove s.allowances (info.sender, spender),
        allowances_spender :=
          Map.remove s.allowances_spender (spender, info.sender) } := by
    intro e2
    unfold execute_decrease_allowance
    rw [if_neg hs, hcur]
    dsimp only
    rw [if_neg hnot]
  refine ⟨_, hrun expires, ?_, ?_, ?_,
    fun e2 => (hrun e2).trans (hrun expires).symm⟩
  · show Map.remove s.allowances (info.sender, spender)
      (info.sender, spender) = none
    unfold Map.remove
    rw [if_pos rfl]
  · show Map.remove s.allowances_spender (spender, info.sender)
      (spender, info.sender) = none
    unfold Map.remove
    rw [if_pos rfl]
  · unfold query_allowance
    show (Map.remove s.allowances (info.sender, spender)
      (info.sender, spender)).getD _ = _
    unfold Map.remove
    rw [if_pos rfl]
    rfl

theorem claim_C5_witness :
    ∃ s2, execute_decrease_allowance sC5 envH infoA "addr0002"
        99988647623876347 (some (Expiration.atHeight 1)) = .ok s2
      ∧ s2.allowances ("addr0001", "addr0002") = none
      ∧ s2.allowances_spender ("addr0002", "addr0001") = none
      ∧ query_allowance s2 "addr0001" "addr0002" =
        AllowanceResponse.default_val := by
  obtain ⟨s2, he, h1, h2, h3, _⟩ := claim_C5_decrease_delete sC5 envH
    infoA "addr0002"
    { allowance := 7777, expires := Expiration.atHeight 123456 }
    99988647623876347 (some (Expiration.atHeight 1))
    (by decide) rfl (by decide)
  exact ⟨s2, he, h1, h2, h3⟩

/-- Claim C6: for every existing grant and every decrease strictly
smaller than the current amount, with no expires argument, the call
succeeds and both indices store the reduced amount with the original
expiration preserved. -/
theorem claim_C6_decrease_partial (s : ContractState) (env : Env)
    (info : MessageInfo) (spender : Addr) (c : Nat) (e : Expiration)
    (a : Nat)
    (hs : spender ≠ info.sender)
    (hcur : s.allowances (info.sender, spender) =
      some { allowance := c, expires := e })
    (hlt : a < c) :
    ∃ s2, execute_decrease_allowance s env info spender a none = .ok s2
      ∧ s2.allowances (info.sender, spender) =
        some { allowance := c - a, expires := e }
      ∧ s2.allowances_spender (spender, info.sender) =
        some { allowance := c - a, expires := e } := by
  unfold execute_decrease_allowance
  rw [if_neg hs, hcur]
  dsimp only
  rw [if_pos hlt]
  unfold checked_sub
  rw [if_pos (Nat.le_of_lt hlt)]
  dsimp only
  refine ⟨_, rfl, ?_, ?_⟩
  · show Map.save s.allowances (info.sender, spender)
      { allowance := c - a, expires := e } (info.sender, spender) =
      some { allowance := c - a, expires := e }
    unfold Map.save
    rw [if_pos rfl]
  · show Map.save s.allowances_spender (spender, info.sender)
      { allowance := c - a, expires := e } (spender, info.sender) =
      some { allowance := c - a, expires := e }
    unfold Map.save
    rw [if_pos rfl]

theorem claim_C6_witness :
    ∃ s2, execute_decrease_allowance sC5 envH infoA "addr0002" 4444
        none = .ok s2
      ∧ s2.allowances ("addr0001", "addr0002") =
        some { allowance := 3333, expires := Expiration.atHeight 123456 }
      ∧ s2.allowances_spender ("addr0002", "addr0001") =
        some { allowance := 3333, expires := Expiration.atHeight 123456 } := by
  obtain ⟨s2, he, h1, h2⟩ := claim_C6_decrease_partial sC5 envH infoA
    "addr0002" 7777 (Expiration.atHeight 123456) 4444
    (by decide) rfl (by decide)
  exact ⟨s2, he, by simpa using h1, by simpa using h2⟩

/-- Claim C7: against a stored grant whose expiration has elapsed for
the supplied block context, deduct_allowance fails with Expired for
every requested amount (including zero), and the transactional
transfer_from invocation built on it fails with Expired leaving the
whole state — in particular both allowance indices — unchanged. -/
theorem claim_C7_expired_deduct (s : ContractState) (env : Env)
    (info : MessageInfo) (owner recipient : Addr) (g : AllowanceResponse)
    (a : Nat)
    (hcur : s.allowances (owner, info.sender) = some g)
    (hexp : g.expires.is_expired env.block = true) :
    deduct_allowance s owner info.sender env.block a = .error .expired
    ∧ invoke s (fun st =>
        execute_transfer_from st env info owner recipient a) =
      (s, some .expired) := by
  have hd : deduct_allowance s owner info.sender env.block a =
      .error .expired := by
    unfold deduct_allowance Map.update deduct_update_fn
    rw [hcur]
    dsimp only
    rw [if_pos hexp]
  refine ⟨hd, ?_⟩
  have ht : execute_transfer_from s env info owner recipient a =
      .error .expired := by
    unfold execute_transfer_from
    rw [hd]
  unfold invoke
  dsimp only
  rw [ht]

theorem claim_C7_witness :
    deduct_allowance sC5 "addr0001" "addr0002" envExp.block 0 =
      .error .expired
    ∧ invoke sC5 (fun st => execute_transfer_from st envExp
        { sender := "addr0002" } "addr0001" "addr0003" 0) =
      (sC5, some .expired) :=
  claim_C7_expired_deduct sC5 envExp { sender := "addr0002" }
    "addr0001" "addr0003"
    { allowance := 7777, expires := Expiration.atHeight 123456 } 0
    rfl (by decide)

/-- Claim C8 counterexample: decreasing a missing grant (empty state,
owner addr0001, spender addr0002) fails with the storage NotFound Std
error raised by the ? on ALLOWANCES.load, which is a different error
from the NoAllowance error the claim asserts. -/
theorem claim_C8_counterexample :
    execute_decrease_allowance emptyState envH infoA "addr0002" 5 none =
      .error .stdNotFound
    ∧ ExecError.stdNotFound ≠ ExecError.noAllowance :=
  ⟨rfl, by decide⟩

/-- Claim C8 (amended): with owner ≠ spender and no grant stored at
(owner, spender), decrease_allowance fails with the storage NotFound
Std error (surfaced by the ? operator on ALLOWANCES.load) rather than
the NoAllowance error, and the transactional invocation leaves storage
unchanged. -/
theorem claim_C8_amended (s : ContractState) (env : Env)
    (info : MessageInfo) (spender : Addr) (a : Nat)
    (expires : Option Expiration)
    (hs : spender ≠ info.sender)
    (hnone : s.allowances (info.sender, spender) = none) :
    execute_decrease_allowance s env info spender a expires =
      .error .stdNotFound
    ∧ invoke s (fun st =>
        execute_decrease_allowance st env info spender a expires) =
      (s, some .stdNotFound) := by
  have hmain : execute_decrease_allowance s env info spender a expires =
      .error .stdNotFound := by
    unfold execute_decrease_allowance
    rw [if_neg hs, hnone]
  refine ⟨hmain, ?_⟩
  unfold invoke
  dsimp only
  rw [hmain]

theorem claim_C8_witness :
    execute_decrease_allowance emptyState envH infoA "addr0002" 5 none =
      .error .stdNotFound
    ∧ invoke emptyState (fun st =>
        execute_decrease_allowance st envH infoA "addr0002" 5 none) =
      (emptyState, some .stdNotFound) :=
  claim_C8_amended emptyState envH infoA "addr0002" 5 none
    (by decide) rfl

/-- Claim C9 counterexample: a successful increase_allowance with
amount 0 and no expires, from the empty state, stores exactly the
default value (amount 0, expires Never) in the primary index, so it is
not true that no successful operation ever writes the default. -/
theorem claim_C9_counterexample :
    (execute_increase_allowance emptyState envH infoA "addr0002" 0
      none).map (fun s2 => s2.allowances ("addr0001", "addr0002")) =
      .ok (some AllowanceResponse.default_val) := rfl

/-- Claim C9 (amended): decrease_allowance never stores a zero amount —
after every successful decrease, the touched entry in each index is
either deleted or holds a strictly positive amount (whereas other
operations, such as an increase by zero or a deduct of the full amount
of a Never grant, can store the default value). -/
theorem claim_C9_amended (s : ContractState) (env : Env)
    (info : MessageInfo) (spender : Addr) (amount : Nat)
    (expires : Option Expiration) (s2 : ContractState)
    (hok : execute_decrease_allowance s env info spender amount expires =
      .ok s2) :
    (s2.allowances (info.sender, spender) = none ∨
      ∃ v, s2.allowances (info.sender, spender) = some v ∧
        0 < v.allowance)
    ∧ (s2.allowances_spender (spender, info.sender) = none ∨
      ∃ v, s2.allowances_spender (spender, info.sender) = some v ∧
        0 < v.allowance) := by
  unfold execute_decrease_allowance at hok
  split at hok
  · simp at hok
  · split at hok
    · simp at hok
    · rename_i cur heq
      split at hok
      · rename_i hlt
        split at hok
        · simp at hok
        · rename_i n heqsub
          have hn : 0 < n := by
            unfold checked_sub at heqsub
            rw [if_pos (Nat.le_of_lt hlt)] at heqsub
            injection heqsub with heqsub
            omega
          split at hok
          · rename_i exp
            split at hok
            · simp at hok
            · injection hok with hok
              subst hok
              constructor
              · right
                refine ⟨{ allowance := n, expires := exp }, ?_, hn⟩
                show Map.save s.allowances (info.sender, spender)
                  { allowance := n, expires := exp }
                  (info.sender, spender) = _
                unfold Map.save
                rw [if_pos rfl]
              · right
                refine ⟨{ allowance := n, expires := exp }, ?_, hn⟩
                show Map.save s.allowances_spender (spender, info.sender)
                  { allowance := n, expires := exp }
                  (spender, info.sender) = _
                unfold Map.save
                rw [if_pos rfl]
          · injection hok with hok
            subst hok
            constructor
            · right
              refine ⟨{ cur with allowance := n }, ?_, hn⟩
              show Map.save s.allowances (info.sender, spender)
                { cur with allowance := n } (info.sender, spender) = _
              unfold Map.save
              rw [if_pos rfl]
            · right
              refine ⟨{ cur with allowance := n }, ?_, hn⟩
              show Map.save s.allowances_spender (spender, info.sender)
                { cur with allowance := n } (spender, info.sender) = _
              unfold Map.save
              rw [if_pos rfl]
      · injection hok with hok
        subst hok
        constructor
        · left
          show Map.remove s.allowances (info.sender, spender)
            (info.sender, spender) = none
          unfold Map.remove
          rw [if_pos rfl]
        · left
          show Map.remove s.allowances_spender (spender, info.sender)
            (spender, info.sender) = none
          unfold Map.remove
          rw [if_pos rfl]

theorem claim_C9_witness :
    (stateC9post.allowances ("addr0001", "addr0002") = none ∨
      ∃ v, stateC9post.allowances ("addr0001", "addr0002") = some v ∧
        0 < v.allowance)
    ∧ (stateC9post.allowances_spender ("addr0002", "addr0001") = none ∨
      ∃ v, stateC9post.allowances_spender ("addr0002", "addr0001") =
        some v ∧ 0 < v.allowance) :=
  claim_C9_amended sC5 envH infoA "addr0002" 4444 none stateC9post rfl

/-- Claim C10: deduct_allowance with amount 0 is an identity on any
existing, unexpired grant — it succeeds, returns the stored grant, and
the whole contract state (amount and expiration in both the primary and
reverse index, balances, supply) is exactly the state before the call. -/
theorem claim_C10_deduct_zero (s : ContractState) (owner spender : Addr)
    (block : BlockInfo) (g : AllowanceResponse)
    (h1 : s.allowances (owner, spender) = some g)
    (h2 : s.allowances_spender (spender, owner) = some g)
    (hexp : g.expires.is_expired block = false) :
    deduct_allowance s owner spender block 0 = .ok (s, g) := by
  have hd := deduct_ok s owner spender block g 0 h1 h2 hexp (Nat.zero_le _)
  rw [hd]
  have hg : ({ g with allowance := g.allowance - 0 } : AllowanceResponse) =
      g := by
    show AllowanceResponse.mk (g.allowance - 0) g.expires = g
    rw [Nat.sub_zero]
  have hm1 : Map.save s.allowances (owner, spender)
      { g with allowance := g.allowance - 0 } = s.allowances := by
    funext k
    unfold Map.save
    by_cases hk : k = (owner, spender)
    · rw [if_pos hk, hg, hk, h1]
    · rw [if_neg hk]
  have hm2 : Map.save s.allowances_spender (spender, owner)
      { g with allowance := g.allowance - 0 } = s.allowances_spender := by
    funext k
    unfold Map.save
    by_cases hk : k = (spender, owner)
    · rw [if_pos hk, hg, hk, h2]
    · rw [if_neg hk]
  rw [hm1, hm2, hg]

theorem claim_C10_witness :
    deduct_allowance sC3 "addr0001" "addr0002" envH.block 0 =
      .ok (sC3, { allowance := 77777, expires := Expiration.never }) :=
  claim_C10_deduct_zero sC3 "addr0001" "addr0002" envH.block
    { allowance := 77777, expires := Expiration.never } rfl rfl rfl
